import Mathlib

/-!
Shallow embedding of the open-stock transaction-processing core.

Pure data is translated from `src/src/methods/common.rs`,
`src/src/methods/stml/order.rs`, `src/src/methods/product/variant.rs` and
`src/src/methods/transaction/handlers.rs`.  Rust `f32` amounts are embedded
as rationals, `DateTime<Utc>` as integers, `Uuid` as strings.  Database
calls are embedded as an oracle record (`Db`) plus an explicit trace of
state-changing effects, so that ordering claims about persistence and stock
mutation can be stated.  Types whose defining file is not under `src/`
(for example `DiscountValue`) are modelled from the specification and say
so in their doc comment.
-/

namespace OpenStock

/- ------------------------------------------------------------------ -/
/- Common data (src/src/methods/common.rs)                             -/
/- ------------------------------------------------------------------ -/

abbrev Id := String

abbrev Url := String

abbrev Tag := String

abbrev TagList := List Tag

structure Name where
  first : String
  middle : String
  last : String
deriving DecidableEq

structure MobileNumber where
  number : String
  valid : Bool
deriving DecidableEq

structure Email where
  root : String
  domain : String
  full : String
deriving DecidableEq

structure Address where
  street : String
  street2 : String
  city : String
  country : String
  po_code : String
  lat : ℚ
  lon : ℚ
deriving DecidableEq

structure ContactInformation where
  name : String
  mobile : MobileNumber
  email : Email
  landline : String
  address : Address
deriving DecidableEq

structure Location where
  store_code : String
  store_id : String
  contact : ContactInformation
deriving DecidableEq

structure Note where
  message : String
  author : String
  timestamp : Int
deriving DecidableEq

abbrev NoteList := List Note

/- ------------------------------------------------------------------ -/
/- Discounts                                                           -/
/- ------------------------------------------------------------------ -/

/-- Modelled from the spec: the defining file of `DiscountValue` is not
under `src/` (only importers are).  Spec section 3: a tagged variant,
`Percentage(integer 0-100)` or `Fixed(amount)`. -/
inductive DiscountValue where
  | Percentage (p : Int)
  | Fixed (f : ℚ)
deriving DecidableEq

/-- Modelled from the spec: the defining file of `apply_discount` is not
under `src/`.  Spec section 4.1 (DiscountCalculator):
`Percentage(p)` returns `amount * (100 - p) / 100`;
`Fixed(f)` returns `max(amount - f, 0)`. -/
def apply_discount (d : DiscountValue) (amount : ℚ) : ℚ :=
  match d with
  | .Percentage p => amount * (100 - (p : ℚ)) / 100
  | .Fixed f => max (amount - f) 0

/- ------------------------------------------------------------------ -/
/- Orders (src/src/methods/stml/order.rs)                              -/
/- ------------------------------------------------------------------ -/

structure TransitInformation where
  shipping_company : ContactInformation
  query_url : Url
  tracking_code : String
deriving DecidableEq

inductive OrderStatus where
  | Queued
  | Transit (info : TransitInformation)
  | Processing (since : Int)
  | InStore
  | Fulfilled
  | Failed (reason : String)
deriving DecidableEq

structure OrderState where
  date : Int
  status : OrderStatus
deriving DecidableEq

/-- Per-line-item pick status; the variant set is fixed by the `match` in
`update_product_status` (src/src/methods/transaction/handlers.rs) and by
spec section 3. -/
inductive PickStatus where
  | Pending
  | Processing
  | Picked
  | Uncertain
  | Failed
deriving DecidableEq

/-- Modelled from the spec: the defining file of the transaction type enum
is not under `src/` (the generated entity row references it).  Spec
section 3: "transaction type (enumerated: sale/return/etc.)". -/
inductive TransactionType where
  | Sale
  | Return
deriving DecidableEq

/-- Modelled from the spec: the defining file of `ProductPurchase` is not
under `src/`.  Fields are those used by `create` in
src/src/methods/transaction/handlers.rs together with spec section 3:
variant code, SKU, quantity, unit cost, per-line discount. -/
structure ProductPurchase where
  id : String
  product_code : String
  product_sku : String
  quantity : ℚ
  product_cost : ℚ
  discount : DiscountValue
deriving DecidableEq

abbrev ProductPurchaseList := List ProductPurchase

structure Order where
  id : String
  destination : Location
  origin : Location
  products : ProductPurchaseList
  status : OrderStatus
  status_history : List OrderState
  order_notes : NoteList
  reference : String
  creation_date : Int
  discount : DiscountValue
deriving DecidableEq

abbrev OrderList := List Order

/- ------------------------------------------------------------------ -/
/- Transactions (fields from src/src/entities/transactions.rs and the   -/
/- uses in src/src/methods/transaction/handlers.rs)                    -/
/- ------------------------------------------------------------------ -/

/-- Modelled from the spec: the payment record type is not under `src/`;
`create` reads `payment.amount.quantity`, and spec section 3 gives
"payment records (each with an amount and method)". -/
structure PaymentAmount where
  quantity : ℚ
deriving DecidableEq

structure Payment where
  amount : PaymentAmount
deriving DecidableEq

/-- Modelled from the spec: the `TransactionInit` struct is not under
`src/`; fields are those read by `create` in
src/src/methods/transaction/handlers.rs plus the persisted row shape in
src/src/entities/transactions.rs. -/
structure TransactionInit where
  customer : String
  transaction_type : TransactionType
  products : OrderList
  payment : List Payment
  order_date : Int
  salesperson : String
  kiosk : String
deriving DecidableEq

/-- The persisted transaction, mirroring the row in
src/src/entities/transactions.rs (`id`, customer, type, orders, total,
payments, date, salesperson, kiosk). -/
structure Transaction where
  id : String
  customer : String
  transaction_type : TransactionType
  products : OrderList
  order_total : ℚ
  payment : List Payment
  order_date : Int
  salesperson : String
  kiosk : String
deriving DecidableEq

/-- Field-for-field the struct literal pushed by `create` in
src/src/methods/transaction/handlers.rs. -/
structure QuantityAlterationIntent where
  variant_code : String
  product_sku : String
  transaction_store_code : String
  transaction_store_id : String
  transaction_type : TransactionType
  quantity_to_transact : ℚ
deriving DecidableEq

/- ------------------------------------------------------------------ -/
/- Sessions and authorization (src/src/methods/common.rs)              -/
/- ------------------------------------------------------------------ -/

/-- The actions referenced by the handler files under `src/`. -/
inductive Action where
  | FetchTransaction
  | CreateTransaction
  | ModifyTransaction
  | DeleteTransaction
  | GenerateTemplateContent
  | FetchStore
  | ModifyStore
  | FetchSupplier
deriving DecidableEq

structure Access (T : Type) where
  action : T
  authority : Int
deriving DecidableEq

/-- The employee object carried by a session; only the fields consumed by
code under `src/` are kept (`auth` and `clock_history` cross into types
defined outside `src/` and are consumed by no claim). -/
structure Employee where
  id : String
  rid : String
  name : Name
  contact : ContactInformation
  level : List (Access Action)
deriving DecidableEq

structure Session where
  id : String
  key : String
  employee : Employee
  expiry : Int
deriving DecidableEq

/-- `Session::has_permission` from src/src/methods/common.rs lines
181-200: find the matching access entry, defaulting to authority 0;
`GenerateTemplateContent` short-circuits to true, otherwise the authority
must be at least 1. -/
def Session.has_permission (self : Session) (permission : Action) : Bool :=
  let action :=
    match self.employee.level.find? (fun x => x.action == permission) with
    | some e => e
    | none => { action := permission, authority := 0 }
  if action.action == Action.GenerateTemplateContent then
    true
  else
    decide (1 ≤ action.authority)

/- ------------------------------------------------------------------ -/
/- Errors (src/src/methods/common.rs, ErrorResponse and Error)         -/
/- ------------------------------------------------------------------ -/

inductive Error where
  | StandardError (message : String)
  | InputError (message : String)
  | Unauthorized (message : String)
  | DbError (message : String)
deriving DecidableEq

def actionName : Action → String
  | .FetchTransaction => "FetchTransaction"
  | .CreateTransaction => "CreateTransaction"
  | .ModifyTransaction => "ModifyTransaction"
  | .DeleteTransaction => "DeleteTransaction"
  | .GenerateTemplateContent => "GenerateTemplateContent"
  | .FetchStore => "FetchStore"
  | .ModifyStore => "ModifyStore"
  | .FetchSupplier => "FetchSupplier"

def ErrorResponse.create_error (message : String) : Error :=
  .StandardError message

def ErrorResponse.input_error : Error :=
  .InputError "Unable to update fields due to malformed inputs"

def ErrorResponse.unauthorized (action : Action) : Error :=
  .Unauthorized ("User lacks " ++ actionName action ++ " permission.")

def ErrorResponse.db_err (message : String) : Error :=
  .DbError ("SQL error, reason: " ++ message)

/- ------------------------------------------------------------------ -/
/- Persistence collaborator and effect traces                          -/
/- ------------------------------------------------------------------ -/

structure InsertResult where
  last_insert_id : String
deriving DecidableEq

/-- Oracle for the persistence collaborator: the outcomes the database
returns for each call a handler under `src/` makes.  The bodies of the
`Transaction::*` associated functions are not under `src/`, so each is a
boundary call here (spec section 6 lists them as external interface). -/
structure Db where
  insertTransaction : TransactionInit → Except String InsertResult
  fetch_by_id : String → Except String Transaction
  fetch_by_ref : String → Except String (List Transaction)
  update_order_status : Id → String → OrderStatus → Except String Transaction
  update_product_status : Id → String → String → String → PickStatus → Except String Transaction

/-- State-changing calls a handler issues, in order.  Reads go through the
`Db` oracle and leave no trace; writes are recorded so that claims about
ordering and about the absence of partial state can be stated. -/
inductive Effect where
  | insertTransaction (init : TransactionInit)
  | processIntents (intents : List QuantityAlterationIntent)
  | fetchById (id : String)
  | updateOrderStatus (id : Id) (refer : String) (status : OrderStatus)
  | updateProductStatus (id : Id) (refer : String) (pid : String) (iid : String) (status : PickStatus)
deriving DecidableEq

/-- Outcome of a handler that may also terminate abnormally: Rust
`unwrap()` on an `Err`/`None` aborts the request by panicking rather than
returning an `Error` value. -/
inductive HResult (α : Type) where
  | ok (val : α)
  | err (e : Error)
  | panicked
deriving DecidableEq

/- ------------------------------------------------------------------ -/
/- Transaction creation (src/src/methods/transaction/handlers.rs,      -/
/- `create`, lines 224-294)                                            -/
/- ------------------------------------------------------------------ -/

/-- The intent-accumulation loop of `create` (handlers.rs lines 236-250):
nested `for_each` over orders and their products, pushing one
`QuantityAlterationIntent` per product onto a growing vector. -/
def computeIntents (new_transaction : TransactionInit) : List QuantityAlterationIntent :=
  new_transaction.products.foldl
    (fun acc order =>
      order.products.foldl
        (fun acc2 product =>
          acc2 ++ [{ variant_code := product.product_code
                     product_sku := product.product_sku
                     transaction_store_code := order.origin.store_code
                     transaction_store_id := order.origin.store_id
                     transaction_type := new_transaction.transaction_type
                     quantity_to_transact := product.quantity }])
        acc)
    []

/-- `total_paid` of `create` (handlers.rs lines 252-256). -/
def computeTotalPaid (new_transaction : TransactionInit) : ℚ :=
  (new_transaction.payment.map (fun payment => payment.amount.quantity)).sum

/-- `total_cost` of `create` (handlers.rs lines 257-275). -/
def computeTotalCost (new_transaction : TransactionInit) : ℚ :=
  (new_transaction.products.map
    (fun order =>
      apply_discount order.discount
        ((order.products.map
          (fun product =>
            apply_discount product.discount (product.product_cost * product.quantity))).sum))).sum

/-- The `create` handler (handlers.rs lines 224-294), with the session
already resolved (cookie handling is an external collaborator).  Returns
the handler result together with the trace of state-changing calls. -/
def create (db : Db) (session : Session) (new_transaction : TransactionInit) :
    Except Error Transaction × List Effect :=
  if session.has_permission Action.CreateTransaction then
    if |computeTotalPaid new_transaction - computeTotalCost new_transaction| > 1 / 10 then
      (.error (ErrorResponse.create_error "Payment amount does not match product costs."), [])
    else
      match db.insertTransaction new_transaction with
      | .ok data =>
        match db.fetch_by_id data.last_insert_id with
        | .ok res =>
          (.ok res,
           [.insertTransaction new_transaction,
            .processIntents (computeIntents new_transaction),
            .fetchById data.last_insert_id])
        | .error reason =>
          (.error (ErrorResponse.db_err reason),
           [.insertTransaction new_transaction,
            .processIntents (computeIntents new_transaction),
            .fetchById data.last_insert_id])
      | .error _ => (.error ErrorResponse.input_error, [.insertTransaction new_transaction])
  else
    (.error (ErrorResponse.unauthorized Action.CreateTransaction), [])

/- ------------------------------------------------------------------ -/
/- Status-update handlers (handlers.rs lines 148-205)                  -/
/- ------------------------------------------------------------------ -/

/-- The `update_order_status` handler (handlers.rs lines 148-170): the
fetched list and its first element are both taken with `unwrap`, so a
failed or empty lookup panics. -/
def update_order_status_handler (db : Db) (session : Session) (refer : String)
    (status : OrderStatus) : HResult Transaction × List Effect :=
  if session.has_permission Action.ModifyTransaction then
    match db.fetch_by_ref refer with
    | .error _ => (.panicked, [])
    | .ok tsn =>
      match tsn.head? with
      | none => (.panicked, [])
      | some first =>
        match db.update_order_status first.id refer status with
        | .ok res => (.ok res, [.updateOrderStatus first.id refer status])
        | .error _ => (.err ErrorResponse.input_error, [.updateOrderStatus first.id refer status])
  else
    (.err (ErrorResponse.unauthorized Action.ModifyTransaction), [])

/-- The status-string `match` of `update_product_status` (handlers.rs
lines 191-198); the wildcard arm returns an input error, encoded as
`none`. -/
def parse_pick_status (status : String) : Option PickStatus :=
  if status = "picked" then some .Picked
  else if status = "pending" then some .Pending
  else if status = "failed" then some .Failed
  else if status = "uncertain" then some .Uncertain
  else if status = "processing" then some .Processing
  else none

/-- The `update_product_status` handler (handlers.rs lines 172-205): the
lookup precedes the status parse, both `unwrap`s panic on failure, and an
unrecognized status string returns an input error with no write issued. -/
def update_product_status_handler (db : Db) (session : Session) (refer : String)
    (pid : String) (iid : String) (status : String) : HResult Transaction × List Effect :=
  if session.has_permission Action.ModifyTransaction then
    match db.fetch_by_ref refer with
    | .error _ => (.panicked, [])
    | .ok tsn =>
      match tsn.head? with
      | none => (.panicked, [])
      | some first =>
        match parse_pick_status status with
        | none => (.err ErrorResponse.input_error, [])
        | some product_status =>
          match db.update_product_status first.id refer pid iid product_status with
          | .ok res =>
            (.ok res, [.updateProductStatus first.id refer pid iid product_status])
          | .error _ =>
            (.err ErrorResponse.input_error, [.updateProductStatus first.id refer pid iid product_status])
  else
    (.err (ErrorResponse.unauthorized Action.ModifyTransaction), [])

/- ------------------------------------------------------------------ -/
/- Fetch-by-reference handlers (handlers.rs lines 62-94)               -/
/- ------------------------------------------------------------------ -/

/-- The `get_by_name` handler (handlers.rs lines 62-77). -/
def get_by_name (db : Db) (session : Session) (name : String) :
    Except Error (List Transaction) :=
  if session.has_permission Action.FetchTransaction then
    match db.fetch_by_ref name with
    | .ok transaction => .ok transaction
    | .error reason => .error (ErrorResponse.db_err reason)
  else
    .error (ErrorResponse.unauthorized Action.FetchTransaction)

/-- The `get_by_product_sku` handler (handlers.rs lines 79-94): the route
parameter is called `sku` but it is passed to the same
`Transaction::fetch_by_ref` lookup as `get_by_name`. -/
def get_by_product_sku (db : Db) (session : Session) (sku : String) :
    Except Error (List Transaction) :=
  if session.has_permission Action.FetchTransaction then
    match db.fetch_by_ref sku with
    | .ok transaction => .ok transaction
    | .error reason => .error (ErrorResponse.db_err reason)
  else
    .error (ErrorResponse.unauthorized Action.FetchTransaction)

/- ------------------------------------------------------------------ -/
/- Promotion query (src/src/methods/product/variant.rs, lines 130-154) -/
/- ------------------------------------------------------------------ -/

/-- A stored promotion row: `buy` and `get` are the serialized rule
columns that the SQL `contains` conditions inspect
(src/src/entities has the row shape; variant.rs stores `json!(prm.buy)`),
`valid_till` and `timestamp` are the stored datetimes. -/
structure PromotionRow where
  id : String
  name : String
  buy : String
  get : String
  valid_till : Int
  timestamp : Int
deriving DecidableEq

/-- Character-list version of a starts-with test. -/
def startsWithL : List Char → List Char → Bool
  | [], _ => true
  | _ :: _, [] => false
  | a :: pat, b :: s => a == b && startsWithL pat s

/-- Character-list substring containment. -/
def containsL (pat : List Char) : List Char → Bool
  | [] => pat.isEmpty
  | b :: s => startsWithL pat (b :: s) || containsL pat s

/-- The SQL `column.contains(pat)` condition (a LIKE match against the
pattern wrapped in wildcards): substring containment on the stored text. -/
def stringContains (s : String) (pat : String) : Bool :=
  containsL pat.toList s.toList

/-- The chained query builder: `find()` starts from the whole table and
each `.having(c)` conjoins one more condition. -/
structure PromotionSelect where
  rows : List PromotionRow
  conditions : List (PromotionRow → Bool)

def Promotions.find (rows : List PromotionRow) : PromotionSelect :=
  { rows := rows, conditions := [] }

def PromotionSelect.having (s : PromotionSelect) (c : PromotionRow → Bool) : PromotionSelect :=
  { rows := s.rows, conditions := s.conditions ++ [c] }

def PromotionSelect.all (s : PromotionSelect) : List PromotionRow :=
  s.rows.filter (fun r => s.conditions.all (fun c => c r))

/-- `Promotion::fetch_by_query` (variant.rs lines 130-154) over a table
snapshot: four chained `having` conditions — buy contains the query, get
contains the query, buy contains "Any", get contains "Any" — and no other
condition. -/
def Promotion.fetch_by_query (query : String) (rows : List PromotionRow) : List PromotionRow :=
  (((((Promotions.find rows).having
    (fun p => stringContains p.buy query)).having
    (fun p => stringContains p.get query)).having
    (fun p => stringContains p.buy "Any")).having
    (fun p => stringContains p.get "Any")).all

/- ------------------------------------------------------------------ -/
/- Spec-modelled operations whose bodies are outside src/              -/
/- ------------------------------------------------------------------ -/

/-- Modelled from the spec: the body of `Transaction::update_order_status`
is not under `src/` (only its caller in handlers.rs is).  Spec sections
4.3 and 4.5: set the new status and append the transition to
`status_history` with its timestamp. -/
def Order.applyStatusUpdate (o : Order) (now : Int) (status : OrderStatus) : Order :=
  { o with
    status := status
    status_history := o.status_history ++ [{ date := now, status := status }] }

/-- Modelled from the spec: the stock application routine
`Transaction::process_intents` is not under `src/`.  Spec section 4.4:
the delta applied for an intent has its sign determined by the
transaction type — sale gives a negative delta, return a positive one. -/
def appliedDelta (intent : QuantityAlterationIntent) : ℚ :=
  match intent.transaction_type with
  | .Sale => -intent.quantity_to_transact
  | .Return => intent.quantity_to_transact

/- ------------------------------------------------------------------ -/
/- Spec-side formulations, for the refinement-style claims             -/
/- ------------------------------------------------------------------ -/

/-- Spec formulation (section 4.5 step 4): the sum over line items of the
line discount applied to `unit_cost * quantity`, written as plain
structural recursion. -/
def specItemsCost : List ProductPurchase → ℚ
  | [] => 0
  | product :: rest =>
    apply_discount product.discount (product.product_cost * product.quantity) + specItemsCost rest

/-- Spec formulation (section 4.5 step 4): the sum over orders of the
order discount applied to the line-item sum of that order. -/
def specOrdersCost : List Order → ℚ
  | [] => 0
  | order :: rest =>
    apply_discount order.discount (specItemsCost order.products) + specOrdersCost rest

/-- Spec formulation of `total_cost`: discounts innermost-first per line
item, then outermost per order. -/
def specTotalCost (new_transaction : TransactionInit) : ℚ :=
  specOrdersCost new_transaction.products

/- ------------------------------------------------------------------ -/
/- Concrete fixtures used by the witnesses                             -/
/- ------------------------------------------------------------------ -/

def exampleContact : ContactInformation :=
  { name := "Example"
    mobile := { number := "000", valid := false }
    email := { root := "a", domain := "b", full := "a@b" }
    landline := ""
    address := { street := "", street2 := "", city := "", country := "", po_code := ""
                 lat := 0, lon := 0 } }

def sessionWith (level : List (Access Action)) : Session :=
  { id := "s1"
    key := "k1"
    employee := { id := "e1", rid := "r1"
                  name := { first := "A", middle := "", last := "B" }
                  contact := exampleContact
                  level := level }
    expiry := 0 }

def creatorSession : Session :=
  sessionWith [{ action := .CreateTransaction, authority := 1 }]

def modifierSession : Session :=
  sessionWith [{ action := .ModifyTransaction, authority := 1 },
               { action := .FetchTransaction, authority := 1 }]

def noPrivSession : Session :=
  sessionWith []

def emptyInit : TransactionInit :=
  { customer := "c", transaction_type := .Sale, products := [], payment := []
    order_date := 0, salesperson := "sp", kiosk := "k" }

def mismatchInit : TransactionInit :=
  { emptyInit with payment := [{ amount := { quantity := 1 } }] }

def exampleTransaction : Transaction :=
  { id := "t1", customer := "c", transaction_type := .Sale, products := []
    order_total := 0, payment := [], order_date := 0, salesperson := "sp", kiosk := "k" }

def dbInsertOk : Db :=
  { insertTransaction := fun _ => .ok { last_insert_id := "t1" }
    fetch_by_id := fun _ => .ok exampleTransaction
    fetch_by_ref := fun _ => .ok []
    update_order_status := fun _ _ _ => .error "collaborator failure"
    update_product_status := fun _ _ _ _ _ => .error "collaborator failure" }

def dbFetchOne : Db :=
  { dbInsertOk with fetch_by_ref := fun _ => .ok [exampleTransaction] }

def expiredPromotion : PromotionRow :=
  { id := "p1", name := "expired", buy := "Any x", get := "Any x"
    valid_till := 0, timestamp := 0 }

/- ------------------------------------------------------------------ -/
/- Theorems                                                            -/
/- ------------------------------------------------------------------ -/

/-- C5: for every session and action, `Session::has_permission` looks up
the employee privilege list for an entry matching the action, treats a
missing entry as authority 0, always authorizes
`GenerateTemplateContent`, and otherwise authorizes exactly when the
found authority is at least 1; consequently a session with no privileges
is authorized for `GenerateTemplateContent` but not for
`ModifyTransaction`. -/
theorem has_permission_resolution (s : Session) (a : Action) :
    (s.has_permission a =
      ((a == Action.GenerateTemplateContent) ||
        decide (1 ≤ (match s.employee.level.find? (fun x => x.action == a) with
          | some e => e.authority
          | none => 0)))) ∧
    (s.employee.level = [] →
      s.has_permission Action.GenerateTemplateContent = true ∧
      s.has_permission Action.ModifyTransaction = false) := by
  constructor
  · cases h : s.employee.level.find? (fun x => x.action == a) with
    | none =>
      cases hb : (a == Action.GenerateTemplateContent) <;>
        simp [Session.has_permission, h, hb]
    | some e =>
      have he : e.action = a := by
        have := List.find?_some h
        simpa using this
      cases hb : (a == Action.GenerateTemplateContent) <;>
        simp [Session.has_permission, h, he, hb]
  · intro h0
    constructor <;> simp [Session.has_permission, h0]

/-- C5 witness: the privilege-free session is authorized for
`GenerateTemplateContent` and refused `ModifyTransaction`. -/
theorem has_permission_resolution_witness :
    noPrivSession.has_permission Action.GenerateTemplateContent = true ∧
    noPrivSession.has_permission Action.ModifyTransaction = false :=
  (has_permission_resolution noPrivSession Action.ModifyTransaction).2 rfl

/-- C6: applying an order-status update appends exactly one new
`(timestamp, status)` entry to `status_history` — the prior entries are
an unchanged prefix and the new entry is last — and sets the current
status. -/
theorem order_status_update_appends_history (o : Order) (now : Int) (status : OrderStatus) :
    ((o.applyStatusUpdate now status).status = status) ∧
    ((o.applyStatusUpdate now status).status_history.length = o.status_history.length + 1) ∧
    ((o.applyStatusUpdate now status).status_history.take o.status_history.length
      = o.status_history) ∧
    ((o.applyStatusUpdate now status).status_history.getLast?
      = some { date := now, status := status }) := by
  refine ⟨rfl, ?_, ?_, ?_⟩ <;>
    simp [Order.applyStatusUpdate, List.take_left, List.getLast?_concat]

/-- C10: `get_by_product_sku` and `get_by_name` are extensionally equal —
both authorize `FetchTransaction` and delegate the string to
`Transaction::fetch_by_ref`. -/
theorem get_by_product_sku_eq_get_by_name (db : Db) (session : Session) (s : String) :
    get_by_product_sku db session s = get_by_name db session s := rfl

/-- Helper: a fold that pushes one element per input equals append of the
mapped list. -/
lemma foldl_push_eq_map {α β : Type} (f : α → β) (l : List α) (acc : List β) :
    l.foldl (fun a x => a ++ [f x]) acc = acc ++ l.map f := by
  induction l generalizing acc with
  | nil => simp
  | cons x rest ih => simp [ih]

/-- Helper: the nested push-fold of `create` equals the flattened map over
orders and their products. -/
lemma foldl_nested_push_eq_bind {α β γ : Type} (g : α → β → γ) (inner : α → List β)
    (l : List α) (acc : List γ) :
    l.foldl (fun a o => (inner o).foldl (fun a2 p => a2 ++ [g o p]) a) acc
      = acc ++ l.flatMap (fun o => (inner o).map (g o)) := by
  induction l generalizing acc with
  | nil => simp
  | cons o rest ih =>
    rw [List.foldl_cons, ih]
    simp [foldl_push_eq_map, List.append_assoc]

/-- C1: with an authorized session, any creation input whose paid total
differs from the computed cost by more than 0.1 makes `create` return the
payment-mismatch validation error with an empty effect trace: nothing is
persisted, no stock intent is applied, no partial state exists. -/
theorem create_rejects_payment_mismatch (db : Db) (session : Session)
    (input : TransactionInit)
    (hperm : session.has_permission Action.CreateTransaction = true)
    (hmismatch : |computeTotalPaid input - computeTotalCost input| > 1 / 10) :
    create db session input =
      (.error (ErrorResponse.create_error "Payment amount does not match product costs."),
       []) := by
  unfold create
  rw [if_pos hperm, if_pos hmismatch]

/-- C1 witness: paying 1 against an empty cart (cost 0) is rejected with
no effects. -/
theorem create_rejects_payment_mismatch_witness :
    create dbInsertOk creatorSession mismatchInit =
      (.error (ErrorResponse.create_error "Payment amount does not match product costs."),
       []) :=
  create_rejects_payment_mismatch dbInsertOk creatorSession mismatchInit
    (by decide)
    (by norm_num [computeTotalPaid, computeTotalCost, mismatchInit, emptyInit])

/-- Helper: the spec-side line-item sum is the mapped sum. -/
lemma specItemsCost_eq_sum (l : List ProductPurchase) :
    specItemsCost l =
      (l.map (fun product =>
        apply_discount product.discount (product.product_cost * product.quantity))).sum := by
  induction l with
  | nil => simp [specItemsCost]
  | cons p rest ih => simp [specItemsCost, ih]

/-- Helper: the spec-side order sum is the mapped sum. -/
lemma specOrdersCost_eq_sum (l : List Order) :
    specOrdersCost l =
      (l.map (fun order =>
        apply_discount order.discount
          ((order.products.map (fun product =>
            apply_discount product.discount (product.product_cost * product.quantity))).sum))).sum := by
  induction l with
  | nil => simp [specOrdersCost]
  | cons o rest ih => simp [specOrdersCost, ih, specItemsCost_eq_sum]

/-- C2: the `total_cost` computed by `create` is exactly the sum over
orders of the order discount applied to the sum over the line items of
that order of the line discount applied to `unit_cost * quantity` — discounts
innermost-first per line item, then outermost per order. -/
theorem total_cost_applies_discounts_innermost_first (input : TransactionInit) :
    computeTotalCost input = specTotalCost input := by
  rw [computeTotalCost, specTotalCost, specOrdersCost_eq_sum]

/-- C3: intent derivation emits exactly one `QuantityAlterationIntent`
per line item of every order, carrying the variant code and SKU of the
line item, the code and id of the origin store, the transaction type and the
purchased quantity; the delta applied for each intent is the negated
quantity for a sale and the quantity itself for a return. -/
theorem create_emits_one_intent_per_line_item (input : TransactionInit) :
    (computeIntents input =
      input.products.flatMap (fun order =>
        order.products.map (fun product =>
          { variant_code := product.product_code
            product_sku := product.product_sku
            transaction_store_code := order.origin.store_code
            transaction_store_id := order.origin.store_id
            transaction_type := input.transaction_type
            quantity_to_transact := product.quantity }))) ∧
    ((computeIntents input).map appliedDelta =
      input.products.flatMap (fun order =>
        order.products.map (fun product =>
          match input.transaction_type with
          | .Sale => -product.quantity
          | .Return => product.quantity))) := by
  have h1 :
      computeIntents input =
        input.products.flatMap (fun order =>
          order.products.map (fun product =>
            ({ variant_code := product.product_code
               product_sku := product.product_sku
               transaction_store_code := order.origin.store_code
               transaction_store_id := order.origin.store_id
               transaction_type := input.transaction_type
               quantity_to_transact := product.quantity } : QuantityAlterationIntent))) := by
    rw [computeIntents, foldl_nested_push_eq_bind]
    simp
  refine ⟨h1, ?_⟩
  rw [h1]
  cases h : input.transaction_type <;>
    simp [List.map_flatMap, List.map_map, Function.comp_def, appliedDelta]

/-- C4: once the session is authorized and the payment check passes,
`create` calls the persistence collaborator first: if the insert fails
the handler aborts with only the attempted insert in its trace and no
stock-intent application; if the insert succeeds the intents are applied
strictly after it and the freshly persisted transaction is re-fetched by
the returned id and returned. -/
theorem create_applies_intents_only_after_persist (db : Db) (session : Session)
    (input : TransactionInit)
    (hperm : session.has_permission Action.CreateTransaction = true)
    (hbalanced : ¬ |computeTotalPaid input - computeTotalCost input| > 1 / 10) :
    (∀ e, db.insertTransaction input = .error e →
      create db session input =
        (.error ErrorResponse.input_error, [.insertTransaction input])) ∧
    (∀ r, db.insertTransaction input = .ok r →
      create db session input =
        ((match db.fetch_by_id r.last_insert_id with
          | .ok res => .ok res
          | .error reason => .error (ErrorResponse.db_err reason)),
         [.insertTransaction input,
          .processIntents (computeIntents input),
          .fetchById r.last_insert_id])) := by
  constructor
  · intro e he
    unfold create
    rw [if_pos hperm, if_neg hbalanced, he]
  · intro r hr
    unfold create
    rw [if_pos hperm, if_neg hbalanced, hr]
    cases hf : db.fetch_by_id r.last_insert_id <;> simp [hf]

/-- C4 witness: with a collaborator whose insert succeeds with id `t1`,
creating a balanced empty transaction applies the (empty) intent list
after the insert, re-fetches `t1` and returns it. -/
theorem create_applies_intents_only_after_persist_witness :
    create dbInsertOk creatorSession emptyInit =
      (.ok exampleTransaction,
       [.insertTransaction emptyInit, .processIntents [], .fetchById "t1"]) := by
  have h :=
    (create_applies_intents_only_after_persist dbInsertOk creatorSession emptyInit
      (by decide)
      (by norm_num [computeTotalPaid, computeTotalCost, emptyInit])).2
      { last_insert_id := "t1" } rfl
  simpa [dbInsertOk, computeIntents, emptyInit] using h

/-- Helper: the four chained `having` conditions of `fetch_by_query`
amount to one conjunctive row filter. -/
lemma fetch_by_query_eq_filter (query : String) (rows : List PromotionRow) :
    Promotion.fetch_by_query query rows =
      rows.filter (fun p =>
        stringContains p.buy query && stringContains p.get query &&
        stringContains p.buy "Any" && stringContains p.get "Any") := by
  unfold Promotion.fetch_by_query Promotions.find PromotionSelect.having PromotionSelect.all
  refine List.filter_congr ?_
  intro r _
  simp [List.all, Bool.and_assoc]

/-- C7 counterexample: `Promotion::fetch_by_query` never consults
`valid_till`.  With evaluation time `as_of = 1` and a catalog holding one
promotion whose `valid_till = 0` (so `as_of ≤ valid_till` fails), the
query still returns that promotion, so a promotion past its `valid_till`
does contribute a match. -/
theorem fetch_by_query_ignores_valid_till :
    Promotion.fetch_by_query "x" [expiredPromotion] = [expiredPromotion] ∧
    ¬ ((1 : Int) ≤ expiredPromotion.valid_till) := by
  constructor
  · decide
  · decide

/-- C7 amended: `Promotion::fetch_by_query` filters the catalog to
exactly those promotions whose stored buy rule and get rule each contain
the query string and each contain the text "Any"; the result is
independent of `valid_till` (rewriting the `valid_till` of every row commutes
with the query). -/
theorem fetch_by_query_filters_by_rule_containment (query : String)
    (rows : List PromotionRow) :
    (Promotion.fetch_by_query query rows =
      rows.filter (fun p =>
        stringContains p.buy query && stringContains p.get query &&
        stringContains p.buy "Any" && stringContains p.get "Any")) ∧
    (∀ v : Int,
      Promotion.fetch_by_query query (rows.map (fun r => { r with valid_till := v })) =
        (Promotion.fetch_by_query query rows).map (fun r => { r with valid_till := v })) := by
  refine ⟨fetch_by_query_eq_filter query rows, ?_⟩
  intro v
  rw [fetch_by_query_eq_filter, fetch_by_query_eq_filter]
  induction rows with
  | nil => rfl
  | cons r rest ih =>
    simp only [List.map_cons, List.filter_cons]
    cases hc : (stringContains r.buy query && stringContains r.get query &&
        stringContains r.buy "Any" && stringContains r.get "Any") <;>
      simp [hc, ih]

/-- C8: with an authorized session and a reference that resolves to a
transaction, an unrecognized status string makes `update_product_status`
return the input error before any write is issued: the effect trace is
empty. -/
theorem update_product_status_rejects_unknown_status (db : Db) (session : Session)
    (refer pid iid status : String) (t : Transaction) (l : List Transaction)
    (hperm : session.has_permission Action.ModifyTransaction = true)
    (hfetch : db.fetch_by_ref refer = .ok l)
    (hhead : l.head? = some t)
    (hstatus : status ∉ (["picked", "pending", "failed", "uncertain", "processing"] : List String)) :
    update_product_status_handler db session refer pid iid status =
      (.err ErrorResponse.input_error, []) := by
  have h1 : status ≠ "picked" := fun h => hstatus (by simp [h])
  have h2 : status ≠ "pending" := fun h => hstatus (by simp [h])
  have h3 : status ≠ "failed" := fun h => hstatus (by simp [h])
  have h4 : status ≠ "uncertain" := fun h => hstatus (by simp [h])
  have h5 : status ≠ "processing" := fun h => hstatus (by simp [h])
  have hparse : parse_pick_status status = none := by
    simp [parse_pick_status, h1, h2, h3, h4, h5]
  unfold update_product_status_handler
  rw [if_pos hperm, hfetch]
  simp [hhead, hparse]

/-- C8 witness: the unknown status string "bogus" is rejected with no
write, with the lookup succeeding on a one-element result list. -/
theorem update_product_status_rejects_unknown_status_witness :
    update_product_status_handler dbFetchOne modifierSession "r" "p" "i" "bogus" =
      (.err ErrorResponse.input_error, []) :=
  update_product_status_rejects_unknown_status dbFetchOne modifierSession
    "r" "p" "i" "bogus" exampleTransaction [exampleTransaction]
    (by decide) rfl rfl (by decide)

/-- C9: when the transaction lookup by reference fails or returns an
empty list, both `update_order_status` and `update_product_status` panic
(`unwrap` on the fetch result and on its first element) instead of
returning a structured error, even for an authorized session. -/
theorem status_update_handlers_panic_on_missing_transaction (db : Db)
    (session : Session) (refer pid iid : String) (ostatus : OrderStatus) (pstr : String)
    (hperm : session.has_permission Action.ModifyTransaction = true) :
    (∀ e, db.fetch_by_ref refer = .error e →
      update_order_status_handler db session refer ostatus = (.panicked, []) ∧
      update_product_status_handler db session refer pid iid pstr = (.panicked, [])) ∧
    (db.fetch_by_ref refer = .ok [] →
      update_order_status_handler db session refer ostatus = (.panicked, []) ∧
      update_product_status_handler db session refer pid iid pstr = (.panicked, [])) := by
  constructor
  · intro e he
    constructor
    · unfold update_order_status_handler
      rw [if_pos hperm, he]
    · unfold update_product_status_handler
      rw [if_pos hperm, he]
  · intro he
    constructor
    · unfold update_order_status_handler
      rw [if_pos hperm, he]
      rfl
    · unfold update_product_status_handler
      rw [if_pos hperm, he]
      rfl

/-- C9 witness: against a collaborator whose lookup returns an empty
list, both status-update handlers panic for an authorized session. -/
theorem status_update_handlers_panic_witness :
    update_order_status_handler dbInsertOk modifierSession "r" OrderStatus.Fulfilled
        = (.panicked, []) ∧
    update_product_status_handler dbInsertOk modifierSession "r" "p" "i" "picked"
        = (.panicked, []) :=
  (status_update_handlers_panic_on_missing_transaction dbInsertOk modifierSession
    "r" "p" "i" OrderStatus.Fulfilled "picked" (by decide)).2 rfl

end OpenStock
